import Mathlib

/-!
Shallow embedding of `src/python-scraper/app.py`: a Flask service with two
routes.  `home` serves `GET /` and `get_price` serves `GET /request`.
Query parameters reach the handler as `Option String` (Flask's
`request.args.get` yields `None` when a parameter is absent); `market` is
read with default `""`.  The current system date is passed explicitly as a
`Date` value, and `strftime "%d %b %Y"` is embedded as `strftimeDbY`.
The `try`/`except` around record construction is embedded by making the
block return `Except String Response` and funnelling it through
`handleExcept`, which is the `except` clause (status 500, error body).
-/

/-- Calendar date, the data `datetime.now()` supplies to `strftime`. -/
structure Date where
  day : Nat
  month : Nat
  year : Nat
deriving DecidableEq, Repr

/-- Three-letter English month abbreviation, `strftime`'s `%b` in the C locale. -/
def monthAbbr : Nat → String
  | 1 => "Jan"
  | 2 => "Feb"
  | 3 => "Mar"
  | 4 => "Apr"
  | 5 => "May"
  | 6 => "Jun"
  | 7 => "Jul"
  | 8 => "Aug"
  | 9 => "Sep"
  | 10 => "Oct"
  | 11 => "Nov"
  | 12 => "Dec"
  | _ => ""

/-- Zero-padded two-digit rendering, `strftime`'s `%d` for the day of month. -/
def pad2 (n : Nat) : String :=
  if n < 10 then "0" ++ Nat.repr n else Nat.repr n

/-- Embedding of `datetime.now().strftime("%d %b %Y")` (app.py line 42). -/
def strftimeDbY (d : Date) : String :=
  pad2 d.day ++ " " ++ monthAbbr d.month ++ " " ++ Nat.repr d.year

/-- The synthetic price record built by `get_price` (app.py lines 47-58).
Field names transliterate the JSON keys `S.No`, `City`, `Commodity`,
`Min Prize`, `Max Prize`, `Model Prize`, `Date`. -/
structure PriceRecord where
  sNo : String
  city : String
  commodity : String
  minPrize : String
  maxPrize : String
  modelPrize : String
  date : String
deriving DecidableEq, Repr

/-- The possible response bodies: a plain-text string, the JSON object
`{"error": msg}` from `jsonify({"error": ...})`, or a JSON array of price
records from `jsonify(data)`. -/
inductive Body where
  | text : String → Body
  | errorObj : String → Body
  | records : List PriceRecord → Body
deriving DecidableEq, Repr

/-- An HTTP response: status code and body.  Flask's bare `return jsonify(data)`
carries status 200. -/
structure Response where
  status : Nat
  body : Body
deriving DecidableEq, Repr

/-- The query parameters of a `GET /request`; `none` means the parameter is
absent from the query string. -/
structure Request where
  commodity : Option String
  state : Option String
  market : Option String
deriving DecidableEq, Repr

/-- Python truthiness of an optional string: `None` and `""` are falsy,
every other string is truthy.  This is what `if not commodity or not state`
tests in app.py line 22. -/
def truthy : Option String → Bool
  | none => false
  | some s => !(s == "")

/-- A parameter is missing in the sense of app.py's validation: absent from
the query string or supplied as the empty string. -/
def missingParam (o : Option String) : Prop :=
  o = none ∨ o = some ""

instance (o : Option String) : Decidable (missingParam o) := by
  unfold missingParam
  infer_instance

/-- The `home` route (app.py lines 12-14): `GET /` returns a fixed usage
string; Flask gives a bare string return status 200. -/
def home : Response :=
  ⟨200, .text "Agmarknet Scraper API is Running! Use /request?commodity=Wheat&state=Punjab"⟩

/-- The body of the `try:` block of `get_price` (app.py lines 25-59): format
the current date, build the single mocked record, return it as a JSON array
with status 200.  `city` is `market if market else state`. -/
def tryBody (commodity state market : String) (now : Date) : Except String Response :=
  let current_date := strftimeDbY now
  let data : List PriceRecord :=
    [ { sNo := "1"
      , city := if market ≠ "" then market else state
      , commodity := commodity
      , minPrize := "2200"
      , maxPrize := "2400"
      , modelPrize := "2300"
      , date := current_date } ]
  .ok ⟨200, .records data⟩

/-- The `except Exception as e:` clause of `get_price` (app.py lines 61-62):
a raised exception with message `e` becomes status 500 with body
`{"error": str(e)}`; a normal result passes through unchanged. -/
def handleExcept (r : Except String Response) : Response :=
  match r with
  | .ok resp => resp
  | .error e => ⟨500, .errorObj e⟩

/-- The `/request` handler `get_price` (app.py lines 16-62): read the three
query parameters (`market` defaulting to `""`), reject missing/empty
`commodity` or `state` with 400, otherwise run the `try:` block under the
`except` clause. -/
def get_price (req : Request) (now : Date) : Response :=
  let commodity := req.commodity
  let state := req.state
  let market := req.market.getD ""
  if !(truthy commodity) || !(truthy state) then
    ⟨400, .errorObj "Please provide commodity and state"⟩
  else
    handleExcept (tryBody (commodity.getD "") (state.getD "") market now)

theorem truthy_eq_false_iff (o : Option String) : truthy o = false ↔ missingParam o := by
  cases o with
  | none => simp [truthy, missingParam]
  | some s => simp [truthy, missingParam]

theorem truthy_eq_true_iff (o : Option String) : truthy o = true ↔ ¬ missingParam o := by
  rw [← truthy_eq_false_iff]
  cases truthy o <;> simp

theorem truthy_iff_getD (m : Option String) : truthy m = true ↔ m.getD "" ≠ "" := by
  cases m <;> simp [truthy]

theorem toDigitsCore_length_le_acc (b : Nat) :
    ∀ (f n : Nat) (l : List Char), l.length ≤ (Nat.toDigitsCore b f n l).length := by
  intro f
  induction f with
  | zero => intro n l; simp [Nat.toDigitsCore]
  | succ f ih =>
    intro n l
    simp only [Nat.toDigitsCore]
    by_cases h : n / b = 0
    · simp [h]
    · simp only [h, if_false]
      calc l.length ≤ (Nat.digitChar (n % b) :: l).length := by simp
        _ ≤ _ := ih (n / b) _

theorem toDigitsCore_length_lower (b : Nat) (hb : 2 ≤ b) :
    ∀ (k f n : Nat) (l : List Char), n < f → b ^ k ≤ n →
      k + 1 + l.length ≤ (Nat.toDigitsCore b f n l).length := by
  intro k
  induction k with
  | zero =>
    intro f n l hf hn
    simp only [pow_zero] at hn
    cases f with
    | zero => omega
    | succ f =>
      simp only [Nat.toDigitsCore]
      by_cases h : n / b = 0
      · simp only [h, if_true, List.length_cons]
        omega
      · simp only [h, if_false]
        have := toDigitsCore_length_le_acc b f (n / b) (Nat.digitChar (n % b) :: l)
        simp only [List.length_cons] at this
        omega
  | succ k ih =>
    intro f n l hf hn
    have hb0 : 0 < b := by omega
    have hn0 : 0 < n := lt_of_lt_of_le (pow_pos hb0 (k + 1)) hn
    have hdiv : b ^ k ≤ n / b := by
      rw [Nat.le_div_iff_mul_le hb0]
      calc b ^ k * b = b ^ (k + 1) := (pow_succ b k).symm
        _ ≤ n := hn
    have hdivne : n / b ≠ 0 := by
      have : 0 < b ^ k := pow_pos hb0 k
      omega
    cases f with
    | zero => omega
    | succ f =>
      simp only [Nat.toDigitsCore, hdivne, if_false]
      have hlt : n / b < f := by
        have h1 : n / b < n := Nat.div_lt_self hn0 (by omega)
        omega
      have := ih f (n / b) (Nat.digitChar (n % b) :: l) hlt hdiv
      simp only [List.length_cons] at this
      omega

theorem repr_length_lower (k n : Nat) (h : 10 ^ k ≤ n) :
    k + 1 ≤ (Nat.repr n).length := by
  have h2 := toDigitsCore_length_lower 10 (by norm_num) k (n + 1) n []
    (Nat.lt_succ_self n) h
  simp only [Nat.repr, Nat.toDigits, String.length, List.asString, List.length_nil] at h2 ⊢
  omega

theorem repr_length_four (n : Nat) (h1 : 1000 ≤ n) (h2 : n ≤ 9999) :
    (Nat.repr n).length = 4 := by
  have hU : (Nat.repr n).length ≤ 4 := Nat.repr_length n 4 (by norm_num) (by omega)
  have hL : 4 ≤ (Nat.repr n).length := by
    have := repr_length_lower 3 n (by norm_num; omega)
    omega
  omega

theorem pad2_length (n : Nat) (h : n ≤ 99) : (pad2 n).length = 2 := by
  interval_cases n <;> rfl

theorem monthAbbr_length (m : Nat) (h1 : 1 ≤ m) (h2 : m ≤ 12) :
    (monthAbbr m).length = 3 := by
  interval_cases m <;> rfl

/-- C1: a GET to /request yields status 400 with exact body
{"error": "Please provide commodity and state"} precisely when `commodity`
or `state` is absent or empty, and a non-400 status otherwise. -/
theorem c1_validation (req : Request) (now : Date) :
    (get_price req now = ⟨400, .errorObj "Please provide commodity and state"⟩
      ↔ (missingParam req.commodity ∨ missingParam req.state)) ∧
    ((get_price req now).status ≠ 400
      ↔ (¬ missingParam req.commodity ∧ ¬ missingParam req.state)) := by
  cases hc : truthy req.commodity with
  | false =>
    have hmc : missingParam req.commodity := (truthy_eq_false_iff _).mp hc
    simp [get_price, hc, hmc]
  | true =>
    have hmc : ¬ missingParam req.commodity := (truthy_eq_true_iff _).mp hc
    cases hs : truthy req.state with
    | false =>
      have hms : missingParam req.state := (truthy_eq_false_iff _).mp hs
      simp [get_price, hc, hs, hms]
    | true =>
      have hms : ¬ missingParam req.state := (truthy_eq_true_iff _).mp hs
      simp [get_price, hc, hs, hmc, hms, tryBody, handleExcept]

/-- C6: when the record-construction block raises with message `e`, the
handler's except clause produces status 500 with JSON body {"error": e}. -/
theorem c6_except_clause (e : String) :
    handleExcept (.error e) = ⟨500, .errorObj e⟩ :=
  rfl

/-- C7: the handler is deterministic and stateless: the response is a pure
function of the request's query parameters and the current date, so two
requests with identical parameters processed at the same date receive
identical responses. -/
theorem c7_deterministic (req₁ req₂ : Request) (now₁ now₂ : Date)
    (h₁ : req₁.commodity = req₂.commodity) (h₂ : req₁.state = req₂.state)
    (h₃ : req₁.market = req₂.market) (h₄ : now₁ = now₂) :
    get_price req₁ now₁ = get_price req₂ now₂ := by
  cases req₁
  cases req₂
  cases h₁
  cases h₂
  cases h₃
  cases h₄
  rfl

/-- C7 witness: two concrete identical requests at the same date get the
same response. -/
theorem c7_deterministic_witness :
    get_price ⟨some "Wheat", some "Punjab", none⟩ ⟨5, 6, 2024⟩
      = get_price ⟨some "Wheat", some "Punjab", none⟩ ⟨5, 6, 2024⟩ :=
  c7_deterministic _ _ _ _ rfl rfl rfl rfl

/-- C8: a GET to the root path always returns status 200 with the fixed
plain-text body, which contains the substring
"Agmarknet Scraper API is Running!"; the route takes no parameters. -/
theorem c8_home_route :
    home.status = 200 ∧
    ∃ suf : String, home.body = .text ("Agmarknet Scraper API is Running!" ++ suf) :=
  ⟨rfl, " Use /request?commodity=Wheat&state=Punjab", rfl⟩

/-- The record `get_price` builds on its success path, as a function of the
validated parameters (app.py lines 47-58); `m` is the raw optional `market`
parameter, read with default `""`. -/
def successRecord (c s : String) (m : Option String) (now : Date) : PriceRecord :=
  { sNo := "1"
  , city := if m.getD "" ≠ "" then m.getD "" else s
  , commodity := c
  , minPrize := "2200"
  , maxPrize := "2400"
  , modelPrize := "2300"
  , date := strftimeDbY now }

theorem get_price_success (c s : String) (m : Option String) (now : Date)
    (hc : c ≠ "") (hs : s ≠ "") :
    get_price ⟨some c, some s, m⟩ now = ⟨200, .records [successRecord c s m now]⟩ := by
  have hct : truthy (some c) = true := by simp [truthy, hc]
  have hst : truthy (some s) = true := by simp [truthy, hs]
  simp [get_price, hct, hst, tryBody, handleExcept, successRecord]

/-- C2: on a successful request the City field equals the `market` parameter
when it is provided and non-empty, and the `state` parameter otherwise. -/
theorem c2_city_field (c s : String) (m : Option String) (now : Date)
    (hc : c ≠ "") (hs : s ≠ "") :
    ∃ rec : PriceRecord,
      (get_price ⟨some c, some s, m⟩ now).body = .records [rec] ∧
      rec.city = (if truthy m then m.getD "" else s) := by
  refine ⟨successRecord c s m now, by rw [get_price_success c s m now hc hs], ?_⟩
  cases m with
  | none => simp [successRecord, truthy]
  | some x => by_cases hx : x = "" <;> simp [successRecord, truthy, hx]

/-- C2 witness: with market "Ludhiana" supplied, City is "Ludhiana". -/
theorem c2_city_field_witness :
    ∃ rec : PriceRecord,
      (get_price ⟨some "Wheat", some "Punjab", some "Ludhiana"⟩ ⟨5, 6, 2024⟩).body
        = .records [rec] ∧
      rec.city = (if truthy (some "Ludhiana") then (some "Ludhiana").getD "" else "Punjab") :=
  c2_city_field "Wheat" "Punjab" (some "Ludhiana") ⟨5, 6, 2024⟩ (by decide) (by decide)

/-- C3: every successful request yields status 200 and a JSON array with
exactly one element. -/
theorem c3_single_record (c s : String) (m : Option String) (now : Date)
    (hc : c ≠ "") (hs : s ≠ "") :
    (get_price ⟨some c, some s, m⟩ now).status = 200 ∧
    ∃ rec : PriceRecord,
      (get_price ⟨some c, some s, m⟩ now).body = .records [rec] := by
  rw [get_price_success c s m now hc hs]
  exact ⟨rfl, successRecord c s m now, rfl⟩

/-- C3 witness: a concrete successful request gets 200 and a one-element
array. -/
theorem c3_single_record_witness :
    (get_price ⟨some "Rice", some "Kerala", none⟩ ⟨1, 1, 2025⟩).status = 200 ∧
    ∃ rec : PriceRecord,
      (get_price ⟨some "Rice", some "Kerala", none⟩ ⟨1, 1, 2025⟩).body = .records [rec] :=
  c3_single_record "Rice" "Kerala" none ⟨1, 1, 2025⟩ (by decide) (by decide)

/-- C4: on every successful request the returned record has S.No "1", the
commodity parameter echoed unchanged, and the fixed price strings "2200",
"2400", "2300". -/
theorem c4_constant_fields (c s : String) (m : Option String) (now : Date)
    (hc : c ≠ "") (hs : s ≠ "") :
    ∃ rec : PriceRecord,
      (get_price ⟨some c, some s, m⟩ now).body = .records [rec] ∧
      rec.sNo = "1" ∧ rec.commodity = c ∧
      rec.minPrize = "2200" ∧ rec.maxPrize = "2400" ∧ rec.modelPrize = "2300" :=
  ⟨successRecord c s m now, by rw [get_price_success c s m now hc hs],
    rfl, rfl, rfl, rfl, rfl⟩

/-- C4 witness: the constant fields at a concrete input, market empty. -/
theorem c4_constant_fields_witness :
    ∃ rec : PriceRecord,
      (get_price ⟨some "Onion", some "Maharashtra", some ""⟩ ⟨9, 12, 2024⟩).body
        = .records [rec] ∧
      rec.sNo = "1" ∧ rec.commodity = "Onion" ∧
      rec.minPrize = "2200" ∧ rec.maxPrize = "2400" ∧ rec.modelPrize = "2300" :=
  c4_constant_fields "Onion" "Maharashtra" (some "") ⟨9, 12, 2024⟩ (by decide) (by decide)

/-- C5: on every successful request the Date field is the current date
rendered as two-digit day, three-letter month abbreviation and four-digit
year ("DD Mon YYYY"): it equals `pad2 day ++ " " ++ monthAbbr month ++
" " ++ repr year`, where for a calendar date the three pieces have lengths
2, 3 and 4. -/
theorem c5_date_format (c s : String) (m : Option String) (now : Date)
    (hc : c ≠ "") (hs : s ≠ "")
    (hd1 : 1 ≤ now.day) (hd2 : now.day ≤ 31)
    (hm1 : 1 ≤ now.month) (hm2 : now.month ≤ 12)
    (hy1 : 1000 ≤ now.year) (hy2 : now.year ≤ 9999) :
    ∃ rec : PriceRecord,
      (get_price ⟨some c, some s, m⟩ now).body = .records [rec] ∧
      rec.date = pad2 now.day ++ " " ++ monthAbbr now.month ++ " " ++ Nat.repr now.year ∧
      (pad2 now.day).length = 2 ∧
      (monthAbbr now.month).length = 3 ∧
      (Nat.repr now.year).length = 4 :=
  ⟨successRecord c s m now, by rw [get_price_success c s m now hc hs], rfl,
    pad2_length now.day (by omega), monthAbbr_length now.month hm1 hm2,
    repr_length_four now.year hy1 hy2⟩

/-- C5 witness: the date format at the concrete date 5 Jun 2024. -/
theorem c5_date_format_witness :
    ∃ rec : PriceRecord,
      (get_price ⟨some "Wheat", some "Punjab", none⟩ ⟨5, 6, 2024⟩).body = .records [rec] ∧
      rec.date = pad2 5 ++ " " ++ monthAbbr 6 ++ " " ++ Nat.repr 2024 ∧
      (pad2 5).length = 2 ∧ (monthAbbr 6).length = 3 ∧ (Nat.repr 2024).length = 4 :=
  c5_date_format "Wheat" "Punjab" none ⟨5, 6, 2024⟩ (by decide) (by decide)
    (by decide) (by decide) (by decide) (by decide) (by decide) (by decide)

/-- C9: with commodity and state present and non-empty the construction
block cannot raise — `tryBody` always returns `ok` — so the 500 branch is
unreachable and the response status is 200. -/
theorem c9_no_failure (c s : String) (m : Option String) (now : Date)
    (hc : c ≠ "") (hs : s ≠ "") :
    (∀ market : String, ∃ resp : Response, tryBody c s market now = .ok resp) ∧
    (get_price ⟨some c, some s, m⟩ now).status = 200 ∧
    (get_price ⟨some c, some s, m⟩ now).status ≠ 500 := by
  refine ⟨fun market => ⟨_, rfl⟩, ?_, ?_⟩
  · rw [get_price_success c s m now hc hs]
  · rw [get_price_success c s m now hc hs]
    simp

/-- C9 witness: a concrete valid request gets 200, not 500. -/
theorem c9_no_failure_witness :
    (∀ market : String, ∃ resp : Response,
      tryBody "Tomato" "Bihar" market ⟨28, 2, 2023⟩ = .ok resp) ∧
    (get_price ⟨some "Tomato", some "Bihar", none⟩ ⟨28, 2, 2023⟩).status = 200 ∧
    (get_price ⟨some "Tomato", some "Bihar", none⟩ ⟨28, 2, 2023⟩).status ≠ 500 :=
  c9_no_failure "Tomato" "Bihar" none ⟨28, 2, 2023⟩ (by decide) (by decide)

/-- C10: validation tests only truthiness: any non-empty commodity and state
strings — whitespace included — pass validation, and the values are echoed
verbatim into the Commodity and City fields with no trimming. -/
theorem c10_truthiness_only (c s : String) (m : Option String) (now : Date)
    (hc : c ≠ "") (hs : s ≠ "") :
    (get_price ⟨some c, some s, m⟩ now).status = 200 ∧
    ∃ rec : PriceRecord,
      (get_price ⟨some c, some s, m⟩ now).body = .records [rec] ∧
      rec.commodity = c ∧
      (truthy m = false → rec.city = s) ∧
      (truthy m = true → rec.city = m.getD "") := by
  rw [get_price_success c s m now hc hs]
  refine ⟨rfl, successRecord c s m now, rfl, rfl, ?_, ?_⟩ <;>
    cases m with
    | none => simp [successRecord, truthy]
    | some x => by_cases hx : x = "" <;> simp [successRecord, truthy, hx]

/-- C10 witness: whitespace-only commodity, state and market pass validation
and are echoed verbatim. -/
theorem c10_truthiness_only_witness :
    (get_price ⟨some " ", some "\t", some "  "⟩ ⟨5, 6, 2024⟩).status = 200 ∧
    ∃ rec : PriceRecord,
      (get_price ⟨some " ", some "\t", some "  "⟩ ⟨5, 6, 2024⟩).body = .records [rec] ∧
      rec.commodity = " " ∧
      (truthy (some "  ") = false → rec.city = "\t") ∧
      (truthy (some "  ") = true → rec.city = (some "  ").getD "") :=
  c10_truthiness_only " " "\t" (some "  ") ⟨5, 6, 2024⟩ (by decide) (by decide)
